import Mathlib

/-!
Verification of the Ralph loop controller (`ralph_wrapper.py`).

The Python source is shallowly embedded below.  Pure helpers become Lean
functions on `String` / `List String`.  Effectful pieces are made explicit:

* The worker invocation (`subprocess.run` of the `claude` CLI) is modelled by
  a per-iteration environment value `WorkerResp`: either the captured stdout,
  a `FileNotFoundError` (executable not on PATH, which the source turns into
  `sys.exit(1)`), or a `TimeoutExpired` (which the source absorbs, returning
  the literal sentinel string `"(timeout — no output)"`).
* Filesystem probes of the `Done/` and `Needs_Action/` directories are
  modelled by an `FsState` per iteration: an existence flag for each
  directory plus the result of listing it, where the listing is
  `Except Unit (List String)` so that a raised `OSError` during
  `iterdir()` / `glob("*.md")` can be represented.  The source functions
  `check_done_folder` / `check_needs_action_empty` contain no `try/except`,
  so in the embedding a listing error propagates monadically, exactly as an
  uncaught Python exception would.
* Wall-clock facts (the task-id timestamp and the elapsed duration) are
  environment inputs: the task id and the elapsed seconds are passed to
  `ralph_loop` as parameters.
* The loop state additionally records ghost observation traces (`iters`,
  `prompts`): the value of the `iteration` counter at each worker invocation
  and the prompt built for it.  These mirror actions the Python loop performs
  (the `for` counter, the `build_prompt` call) without changing any behavior.
-/

namespace RalphWrapper

/-- Python's `needle in hay` substring test on strings, computed over the
underlying character lists. -/
def strContains (hay needle : String) : Bool :=
  (List.range (hay.data.length + 1)).any
    (fun i => needle.data.isPrefixOf (hay.data.drop i))

/-- Python `str.strip()`: remove leading and trailing whitespace. -/
def strTrim (s : String) : String :=
  String.mk (((s.data.dropWhile Char.isWhitespace).reverse.dropWhile
    Char.isWhitespace).reverse)

/-- Python `str.lower()` (ASCII case folding, as used by the source's
heuristics). -/
def strToLower (s : String) : String :=
  String.mk (s.data.map Char.toLower)

/-- `DEFAULT_MAX_LOOPS = 10` (module constant). -/
def DEFAULT_MAX_LOOPS : Nat := 10

/-- `REPEATED_ACTION_THRESHOLD = 3` (module constant). -/
def REPEATED_ACTION_THRESHOLD : Nat := 3

/-- `RALPH_DONE_MARKER = "RALPH_DONE"` (module constant). -/
def RALPH_DONE_MARKER : String := "RALPH_DONE"

/-- One iteration's view of the two probed directories.  The `Except` fields
hold the outcome of actually reading the directory (`Done/` via `iterdir()`,
`Needs_Action/` via `glob("*.md")`): `.error ()` represents a raised OS
exception such as a permission error. -/
structure FsState where
  doneDirExists : Bool
  doneFiles : Except Unit (List String)
  needsActionDirExists : Bool
  needsActionMdFiles : Except Unit (List String)

/-- `check_done_folder(task_id)`: `False` if `Done/` does not exist, else
whether some listed file name has `task_id` as a substring.  The source has
no exception handler, so a listing error propagates. -/
def check_done_folder (fs : FsState) (task_id : String) : Except Unit Bool :=
  if fs.doneDirExists = false then Except.ok false
  else
    match fs.doneFiles with
    | Except.error e => Except.error e
    | Except.ok files => Except.ok (files.any (fun f => strContains f task_id))

/-- `check_needs_action_empty()`: `True` if `Needs_Action/` does not exist,
else whether it holds zero `.md` files.  No exception handler in the source,
so a glob error propagates. -/
def check_needs_action_empty (fs : FsState) : Except Unit Bool :=
  if fs.needsActionDirExists = false then Except.ok true
  else
    match fs.needsActionMdFiles with
    | Except.error e => Except.error e
    | Except.ok files => Except.ok (files.length == 0)

/-- `detect_repeated_action(history)`: true when the last
`REPEATED_ACTION_THRESHOLD` fingerprints exist and are all identical
(Python: `len(set(tail)) == 1`, i.e. the tail has exactly one distinct
element). -/
def detect_repeated_action (history : List String) : Bool :=
  if history.length < REPEATED_ACTION_THRESHOLD then false
  else ((history.drop (history.length - REPEATED_ACTION_THRESHOLD)).dedup.length == 1)

/-- The fingerprint taken of each iteration's output:
`output.strip()[-200:]` — last 200 characters of the whitespace-trimmed
output. -/
def fingerprint (output : String) : String :=
  let t := strTrim output
  String.mk (t.data.drop (t.data.length - 200))

/-- Split a character list at newline characters (the separator semantics of
Python `str.split("\n")`). -/
def splitNlAux : List Char → List Char → List String
  | [], acc => [String.mk acc.reverse]
  | c :: cs, acc =>
    if c = '\n' then String.mk acc.reverse :: splitNlAux cs []
    else splitNlAux cs (c :: acc)

/-- Python `str.splitlines` restricted to `"\n"` separators: no trailing
empty line for a trailing newline, and `[]` on the empty string. -/
def splitLines (s : String) : List String :=
  if s.isEmpty then []
  else
    let parts := splitNlAux s.data []
    if parts.getLast? = some "" then parts.dropLast else parts

/-- `xs[-n:]` on lists. -/
def lastN (n : Nat) (l : List String) : List String :=
  l.drop (l.length - n)

/-- The remaining-work indicator test of `parse_summary_and_remaining`:
the lowercased, stripped line contains one of the three phrases. -/
def isRemainingIndicator (line : String) : Bool :=
  let lower := strTrim (strToLower line)
  strContains lower "remaining" || strContains lower "left to do" ||
    strContains lower "still need"

/-- Accumulator state of the line scanner in `parse_summary_and_remaining`. -/
structure ParseSt where
  capture : Bool
  summaryLines : List String
  remainingLines : List String

/-- `parse_summary_and_remaining(output)`: scan the stripped output's lines;
an indicator line flips the scanner into remaining-mode and is itself kept in
neither bucket; summary is the last 30 summary lines, remaining the last 15
remaining lines (empty if none were captured). -/
def parse_summary_and_remaining (output : String) : String × String :=
  let lines := splitLines (strTrim output)
  let st := lines.foldl
    (fun (st : ParseSt) line =>
      if isRemainingIndicator line then { st with capture := true }
      else if st.capture then { st with remainingLines := st.remainingLines ++ [line] }
      else { st with summaryLines := st.summaryLines ++ [line] })
    ⟨false, [], []⟩
  let summary := String.intercalate "\n" (lastN 30 st.summaryLines)
  let remaining :=
    if st.remainingLines.isEmpty then ""
    else String.intercalate "\n" (lastN 15 st.remainingLines)
  (summary, remaining)

/-- The fixed leading part of the prompt (the f-string template of
`build_prompt`, before the two conditional context sections). -/
def prompt_header (task : String) (iteration max_loops : Nat) : String :=
  s!"You are operating under the Ralph_Wiggum_Loop_Skill (Gold Tier).\nThis is iteration {iteration}/{max_loops} of the Ralph loop.\n\n## Original Task\n{task}\n\n## Instructions\n1. Load and follow Agent_Skills/Ralph_Wiggum_Loop_Skill.md.\n2. REASON about what still needs to be done.\n3. ACT — perform the next concrete step.\n4. CHECK — evaluate the completion checks listed in the skill.\n5. At the END of your response, output one of:\n   - `RALPH_DONE` — if ALL work is complete.\n   - `RALPH_CONTINUE` — if more work remains. Include a brief summary of what\n     you accomplished and what is left.\n\nRespect all existing Agent Skills (Approval_Check, Plan_Tasks, MCP_Action_Logger).\nRespect all Company Handbook rules.\n"

/-- `build_prompt(task, iteration, max_loops, prev_summary, remaining)`:
the header plus, when non-empty (Python truthiness), the previous-summary
section and the known-remaining-work section. -/
def build_prompt (task : String) (iteration max_loops : Nat)
    (prev_summary remaining : String) : String :=
  let prompt := prompt_header task iteration max_loops
  let prompt :=
    if prev_summary.isEmpty then prompt
    else prompt ++ "\n## Previous Iteration Summary\n" ++ prev_summary ++ "\n"
  if remaining.isEmpty then prompt
  else prompt ++ "\n## Known Remaining Work\n" ++ remaining ++ "\n"

/-- What one attempted launch of the external worker can produce:
its captured stdout, a `FileNotFoundError` (the `claude` executable is not
on PATH), or a `TimeoutExpired` after 300 s. -/
inductive WorkerResp
  | ok (out : String)
  | notFound
  | timedOut
deriving DecidableEq, Repr

/-- The literal string `invoke_claude` returns after a timeout. -/
def TIMEOUT_OUTPUT : String := "(timeout — no output)"

/-- `invoke_claude(prompt)`: stdout on success; `sys.exit(1)` (modelled as
`.error ()`) on `FileNotFoundError`; the fixed sentinel string on
`TimeoutExpired`. -/
def invoke_claude : WorkerResp → Except Unit String
  | WorkerResp.ok out => Except.ok out
  | WorkerResp.notFound => Except.error ()
  | WorkerResp.timedOut => Except.ok TIMEOUT_OUTPUT

/-- The environment one loop iteration runs against: the worker's behavior
and the directory state observed by the completion checks. -/
structure IterEnv where
  resp : WorkerResp
  fs : FsState

/-- The five run classifications the loop's exits correspond to. -/
inductive Outcome
  | completedExplicit
  | completedExternal
  | completedQueueEmpty
  | stuck
  | budgetExhausted
deriving DecidableEq, Repr

/-- The distinct fatal terminations of the process: `sys.exit(1)` from a
missing worker executable; an uncaught exception escaping a directory probe;
the `NameError` the final log line raises when the `for` body never ran
(`max_loops < 1` leaves `iteration` unbound). -/
inductive Fatal
  | exeNotFound
  | probeErr
  | nameErr
deriving DecidableEq, Repr

/-- The loop's mutable state: the two context strings, the fingerprint
history, plus ghost traces (`iters`, `prompts`, `lastOutput`) recording the
iteration counter at each invocation, each prompt built, and the most recent
output (Python's still-bound `output` variable). -/
structure LoopSt where
  prevSummary : String
  remaining : String
  history : List String
  iters : List Nat
  prompts : List String
  lastOutput : String
deriving DecidableEq, Repr

/-- State at loop entry. -/
def initSt : LoopSt := ⟨"", "", [], [], [], ""⟩

/-- Result of one loop-body execution. -/
inductive StepRes
  | cont (st : LoopSt)
  | stop (o : Outcome) (output : String) (st : LoopSt)
  | fatal (e : Fatal) (st : LoopSt)
deriving DecidableEq, Repr

/-- Project the state out of a step result. -/
def stepSt : StepRes → LoopSt
  | StepRes.cont st => st
  | StepRes.stop _ _ st => st
  | StepRes.fatal _ st => st

/-- Check 3's guarded probe: Python's short-circuit
`"pending tasks" in task.lower() and check_needs_action_empty()` — the
directory is only probed when the batch heuristic matches. -/
def queueCheck (task : String) (fs : FsState) : Except Unit Bool :=
  if strContains (strToLower task) "pending tasks" then check_needs_action_empty fs
  else Except.ok false

/-- The four completion checks of the loop body, in source order, applied
after the fingerprint was appended to `st.history`. -/
def stepChecks (task task_id : String) (fs : FsState) (output : String)
    (st : LoopSt) : StepRes :=
  if strContains output RALPH_DONE_MARKER then
    StepRes.stop Outcome.completedExplicit output st
  else
    match check_done_folder fs task_id with
    | Except.error _ => StepRes.fatal Fatal.probeErr st
    | Except.ok true => StepRes.stop Outcome.completedExternal output st
    | Except.ok false =>
      match queueCheck task fs with
      | Except.error _ => StepRes.fatal Fatal.probeErr st
      | Except.ok true => StepRes.stop Outcome.completedQueueEmpty output st
      | Except.ok false =>
        if detect_repeated_action st.history then
          StepRes.stop Outcome.stuck output st
        else
          StepRes.cont { st with
            prevSummary := (parse_summary_and_remaining output).1,
            remaining := (parse_summary_and_remaining output).2 }

/-- One execution of the loop body at a given iteration counter value:
build the prompt, invoke the worker (a `FileNotFoundError` aborts the run),
append the output's fingerprint to the history, then run the checks. -/
def stepFn (task task_id : String) (max_loops : Nat) (env : Nat → IterEnv)
    (iteration : Nat) (st : LoopSt) : StepRes :=
  let prompt := build_prompt task iteration max_loops st.prevSummary st.remaining
  let st1 : LoopSt :=
    { st with prompts := st.prompts ++ [prompt], iters := st.iters ++ [iteration] }
  match invoke_claude (env iteration).resp with
  | Except.error _ => StepRes.fatal Fatal.exeNotFound st1
  | Except.ok output =>
    stepChecks task task_id (env iteration).fs output
      { st1 with history := st1.history ++ [fingerprint output], lastOutput := output }

/-- The loop's terminal result: a normal finish (which outcome, the final
value of the `iteration` counter, the final bound `output`), or a fatal
process abort. -/
inductive LoopRes
  | finished (o : Outcome) (iterations : Nat) (finalOutput : String)
  | fatal (e : Fatal)
deriving DecidableEq, Repr

/-- `for iteration in range(1, max_loops + 1)` with the `else` arm: `fuel`
is the number of iterations left; exhausting it is the `for`-`else` path,
where the counter still holds `max_loops` (here `iteration - 1`). -/
def runAux (task task_id : String) (max_loops : Nat) (env : Nat → IterEnv) :
    Nat → Nat → LoopSt → LoopRes × LoopSt
  | 0, iteration, st =>
    (LoopRes.finished Outcome.budgetExhausted (iteration - 1) st.lastOutput, st)
  | fuel + 1, iteration, st =>
    match stepFn task task_id max_loops env iteration st with
    | StepRes.cont st' => runAux task task_id max_loops env fuel (iteration + 1) st'
    | StepRes.stop o output st' => (LoopRes.finished o iteration output, st')
    | StepRes.fatal e st' => (LoopRes.fatal e, st')

/-- The status string the end-of-run log entry records:
`'RALPH_DONE' if RALPH_DONE_MARKER in output else 'max_reached'`. -/
def endStatus (finalOutput : String) : String :=
  if strContains finalOutput RALPH_DONE_MARKER then "RALPH_DONE" else "max_reached"

/-- The end-of-run entry appended to `Logs/System_Log.md`: task id, total
iteration count, elapsed duration, and the two-valued status string. -/
structure EndLog where
  task : String
  totalIterations : Nat
  durationSeconds : Nat
  status : String
deriving DecidableEq, Repr

/-- Build the end-of-run log entry; none is written when the run dies with
an uncaught exception or `sys.exit(1)` before reaching the final lines. -/
def mkEndLog (task_id : String) (elapsed : Nat) : LoopRes → Option EndLog
  | LoopRes.finished _ n out => some ⟨task_id, n, elapsed, endStatus out⟩
  | LoopRes.fatal _ => none

/-- Everything observable about one run. -/
structure RunResult where
  res : LoopRes
  st : LoopSt
  endLog : Option EndLog
deriving DecidableEq, Repr

/-- `ralph_loop(task, max_loops)`.  The task id (timestamp-derived) and the
elapsed seconds are environment inputs.  `max_loops = 0` models any
non-positive budget: `range(1, max_loops + 1)` is empty, the `else` arm
runs, and the final log line raises `NameError` on the unbound `iteration`. -/
def ralph_loop (task task_id : String) (max_loops : Nat) (env : Nat → IterEnv)
    (elapsed : Nat) : RunResult :=
  if max_loops = 0 then ⟨LoopRes.fatal Fatal.nameErr, initSt, none⟩
  else
    ⟨(runAux task task_id max_loops env max_loops 1 initSt).1,
     (runAux task task_id max_loops env max_loops 1 initSt).2,
     mkEndLog task_id elapsed (runAux task task_id max_loops env max_loops 1 initSt).1⟩

/-- The process exit status `main` produces for a run that got as far as
calling `ralph_loop`: 0 on a normal return, nonzero (1) when the run died
via `sys.exit(1)` or an uncaught exception. -/
def exit_code (r : RunResult) : Nat :=
  match r.res with
  | LoopRes.finished _ _ _ => 0
  | LoopRes.fatal _ => 1

/-! ### Observation helpers used to state the claims -/

/-- Substring containment, as a proposition on the underlying character
lists (Python's `needle in hay`). -/
def ContainsStr (hay needle : String) : Prop :=
  needle.data <:+: hay.data

/-- The fingerprint history after `j` worker invocations whose outputs are
`outs 1, …, outs j`. -/
def fpHist (outs : Nat → String) (j : Nat) : List String :=
  (List.range' 1 j).map (fun i => fingerprint (outs i))

/-- The (summary, remaining) context after iteration `j` completed without
stopping: empty at loop entry, else extracted from iteration `j`'s output. -/
def ctxAfter (outs : Nat → String) (j : Nat) : String × String :=
  if j = 0 then ("", "") else parse_summary_and_remaining (outs j)

/-- The prompt built for iteration `i` of a run whose earlier iterations
all continued: it carries the context extracted from iteration `i - 1`. -/
def promptAt (task : String) (max_loops : Nat) (outs : Nat → String) (i : Nat) : String :=
  build_prompt task i max_loops (ctxAfter outs (i - 1)).1 (ctxAfter outs (i - 1)).2

/-- The full loop state after `j` non-stopping iterations. -/
def stateAfter (task : String) (max_loops : Nat) (outs : Nat → String) (j : Nat) : LoopSt :=
  ⟨(ctxAfter outs j).1, (ctxAfter outs j).2, fpHist outs j, List.range' 1 j,
   (List.range' 1 j).map (promptAt task max_loops outs),
   if j = 0 then "" else outs j⟩

/-- Iteration `j` does not terminate the run: the worker answered with
`outs j`, the output holds no done marker, the done-folder probe returned
`False`, the guarded queue probe returned `False`, and the stuck detector is
negative on the history through `j`. -/
def ChecksNegative (task task_id : String) (env : Nat → IterEnv)
    (outs : Nat → String) (j : Nat) : Prop :=
  invoke_claude (env j).resp = Except.ok (outs j) ∧
  strContains (outs j) RALPH_DONE_MARKER = false ∧
  check_done_folder (env j).fs task_id = Except.ok false ∧
  queueCheck task (env j).fs = Except.ok false ∧
  detect_repeated_action (fpHist outs j) = false

/-- The state right after iteration `iteration`'s invocation returned
`output`, before the checks run. -/
def invokedSt (task : String) (max_loops iteration : Nat) (st : LoopSt)
    (output : String) : LoopSt :=
  { st with
    prompts := st.prompts ++ [build_prompt task iteration max_loops st.prevSummary st.remaining],
    iters := st.iters ++ [iteration],
    history := st.history ++ [fingerprint output],
    lastOutput := output }

end RalphWrapper

deriving instance DecidableEq for Except

namespace RalphWrapper

instance (task task_id : String) (env : Nat → IterEnv) (outs : Nat → String)
    (j : Nat) : Decidable (ChecksNegative task task_id env outs j) := by
  unfold ChecksNegative; infer_instance

/-! ### Helper lemmas about the step function and the loop -/

lemma range'_one_concat {j : Nat} (hj : 1 ≤ j) :
    List.range' 1 j = List.range' 1 (j - 1) ++ [j] := by
  cases j with
  | zero => omega
  | succ i => simpa [Nat.add_comm] using List.range'_1_concat 1 i

lemma fpHist_concat (outs : Nat → String) {j : Nat} (hj : 1 ≤ j) :
    fpHist outs j = fpHist outs (j - 1) ++ [fingerprint (outs j)] := by
  unfold fpHist
  rw [range'_one_concat hj, List.map_append]
  rfl

lemma stateAfter_zero (task : String) (max_loops : Nat) (outs : Nat → String) :
    stateAfter task max_loops outs 0 = initSt := rfl

lemma stepFn_ok {task task_id : String} {max_loops : Nat} {env : Nat → IterEnv}
    {iteration : Nat} {st : LoopSt} {output : String}
    (h : invoke_claude (env iteration).resp = Except.ok output) :
    stepFn task task_id max_loops env iteration st =
      stepChecks task task_id (env iteration).fs output
        (invokedSt task max_loops iteration st output) := by
  unfold stepFn invokedSt
  rw [h]

lemma stepFn_notFound {task task_id : String} {max_loops : Nat} {env : Nat → IterEnv}
    {iteration : Nat} {st : LoopSt}
    (h : invoke_claude (env iteration).resp = Except.error ()) :
    stepFn task task_id max_loops env iteration st =
      StepRes.fatal Fatal.exeNotFound
        { st with
          prompts := st.prompts ++ [build_prompt task iteration max_loops st.prevSummary st.remaining],
          iters := st.iters ++ [iteration] } := by
  unfold stepFn
  rw [h]

lemma stepChecks_explicit {task task_id : String} {fs : FsState} {output : String}
    {st : LoopSt} (hm : strContains output RALPH_DONE_MARKER = true) :
    stepChecks task task_id fs output st =
      StepRes.stop Outcome.completedExplicit output st := by
  unfold stepChecks
  simp [hm]

lemma stepChecks_external {task task_id : String} {fs : FsState} {output : String}
    {st : LoopSt} (hm : strContains output RALPH_DONE_MARKER = false)
    (hd : check_done_folder fs task_id = Except.ok true) :
    stepChecks task task_id fs output st =
      StepRes.stop Outcome.completedExternal output st := by
  unfold stepChecks
  simp [hm, hd]

lemma stepChecks_queueEmpty {task task_id : String} {fs : FsState} {output : String}
    {st : LoopSt} (hm : strContains output RALPH_DONE_MARKER = false)
    (hd : check_done_folder fs task_id = Except.ok false)
    (hq : queueCheck task fs = Except.ok true) :
    stepChecks task task_id fs output st =
      StepRes.stop Outcome.completedQueueEmpty output st := by
  unfold stepChecks
  simp [hm, hd, hq]

lemma stepChecks_stuckStop {task task_id : String} {fs : FsState} {output : String}
    {st : LoopSt} (hm : strContains output RALPH_DONE_MARKER = false)
    (hd : check_done_folder fs task_id = Except.ok false)
    (hq : queueCheck task fs = Except.ok false)
    (hdet : detect_repeated_action st.history = true) :
    stepChecks task task_id fs output st = StepRes.stop Outcome.stuck output st := by
  unfold stepChecks
  simp [hm, hd, hq, hdet]

lemma stepChecks_probeFail {task task_id : String} {fs : FsState} {output : String}
    {st : LoopSt} (hm : strContains output RALPH_DONE_MARKER = false)
    (hd : check_done_folder fs task_id = Except.error ()) :
    stepChecks task task_id fs output st = StepRes.fatal Fatal.probeErr st := by
  unfold stepChecks
  simp [hm, hd]

lemma stepChecks_queueFail {task task_id : String} {fs : FsState} {output : String}
    {st : LoopSt} (hm : strContains output RALPH_DONE_MARKER = false)
    (hd : check_done_folder fs task_id = Except.ok false)
    (hq : queueCheck task fs = Except.error ()) :
    stepChecks task task_id fs output st = StepRes.fatal Fatal.probeErr st := by
  unfold stepChecks
  simp [hm, hd, hq]

lemma stepChecks_cont {task task_id : String} {fs : FsState} {output : String}
    {st : LoopSt} (hm : strContains output RALPH_DONE_MARKER = false)
    (hd : check_done_folder fs task_id = Except.ok false)
    (hq : queueCheck task fs = Except.ok false)
    (hdet : detect_repeated_action st.history = false) :
    stepChecks task task_id fs output st =
      StepRes.cont { st with
        prevSummary := (parse_summary_and_remaining output).1,
        remaining := (parse_summary_and_remaining output).2 } := by
  unfold stepChecks
  simp [hm, hd, hq, hdet]

lemma stepChecks_preserves {task task_id : String} {fs : FsState} {output : String}
    {st : LoopSt} :
    (stepSt (stepChecks task task_id fs output st)).history = st.history ∧
    (stepSt (stepChecks task task_id fs output st)).iters = st.iters ∧
    (stepSt (stepChecks task task_id fs output st)).prompts = st.prompts ∧
    (stepSt (stepChecks task task_id fs output st)).lastOutput = st.lastOutput := by
  unfold stepChecks
  repeat' split
  all_goals simp [stepSt]

lemma stepSt_stepFn {task task_id : String} {max_loops : Nat} {env : Nat → IterEnv}
    {iteration : Nat} {st : LoopSt} :
    (stepSt (stepFn task task_id max_loops env iteration st)).iters = st.iters ++ [iteration] ∧
    (stepSt (stepFn task task_id max_loops env iteration st)).prompts =
      st.prompts ++ [build_prompt task iteration max_loops st.prevSummary st.remaining] := by
  unfold stepFn
  cases h : invoke_claude (env iteration).resp with
  | error e =>
    cases e
    simp [stepSt]
  | ok output =>
    exact ⟨by simpa using stepChecks_preserves.2.1, by simpa using stepChecks_preserves.2.2.1⟩

lemma stepFn_cont_hist {task task_id : String} {max_loops : Nat} {env : Nat → IterEnv}
    {iteration : Nat} {st st' : LoopSt}
    (h : stepFn task task_id max_loops env iteration st = StepRes.cont st') :
    st'.history.length = st.history.length + 1 := by
  cases hc : invoke_claude (env iteration).resp with
  | error e =>
    cases e
    rw [stepFn_notFound hc] at h
    exact absurd h (by simp)
  | ok output =>
    rw [stepFn_ok hc] at h
    have hp := (@stepChecks_preserves task task_id (env iteration).fs output
      (invokedSt task max_loops iteration st output)).1
    rw [h] at hp
    simp only [stepSt, invokedSt] at hp
    simp [hp]

lemma stepChecks_stop_stuck {task task_id : String} {fs : FsState} {output out' : String}
    {st st' : LoopSt}
    (h : stepChecks task task_id fs output st = StepRes.stop Outcome.stuck out' st') :
    detect_repeated_action st'.history = true ∧ st' = st := by
  unfold stepChecks at h
  repeat' split at h
  all_goals simp_all

lemma stepFn_stop_stuck {task task_id : String} {max_loops : Nat} {env : Nat → IterEnv}
    {iteration : Nat} {st st' : LoopSt} {out' : String}
    (h : stepFn task task_id max_loops env iteration st = StepRes.stop Outcome.stuck out' st') :
    detect_repeated_action st'.history = true ∧
    st'.history.length = st.history.length + 1 := by
  cases hc : invoke_claude (env iteration).resp with
  | error e =>
    cases e
    rw [stepFn_notFound hc] at h
    exact absurd h (by simp)
  | ok output =>
    rw [stepFn_ok hc] at h
    obtain ⟨hdet, hst⟩ := stepChecks_stop_stuck h
    subst hst
    exact ⟨hdet, by simp [invokedSt]⟩

lemma stepFn_stop_hist {task task_id : String} {max_loops : Nat} {env : Nat → IterEnv}
    {iteration : Nat} {st st' : LoopSt} {o : Outcome} {out' : String}
    (h : stepFn task task_id max_loops env iteration st = StepRes.stop o out' st') :
    st'.history.length = st.history.length + 1 := by
  cases hc : invoke_claude (env iteration).resp with
  | error e =>
    cases e
    rw [stepFn_notFound hc] at h
    exact absurd h (by simp)
  | ok output =>
    rw [stepFn_ok hc] at h
    have hp := (@stepChecks_preserves task task_id (env iteration).fs output
      (invokedSt task max_loops iteration st output)).1
    rw [h] at hp
    simp only [stepSt, invokedSt] at hp
    simp [hp]

lemma detect_length_ge {l : List String} (h : detect_repeated_action l = true) :
    3 ≤ l.length := by
  unfold detect_repeated_action REPEATED_ACTION_THRESHOLD at h
  split at h
  · exact absurd h (by simp)
  · omega

lemma detect_concat_three (l : List String) (x : String) :
    detect_repeated_action (l ++ [x, x, x]) = true := by
  unfold detect_repeated_action REPEATED_ACTION_THRESHOLD
  have hlen : (l ++ [x, x, x]).length = l.length + 3 := by simp
  rw [if_neg (by rw [hlen]; omega)]
  have hdrop : (l ++ [x, x, x]).drop ((l ++ [x, x, x]).length - 3) = [x, x, x] := by
    rw [hlen]
    exact List.drop_left' (by omega)
  rw [hdrop]
  have h1 : ([x, x, x] : List String).dedup = [x] := by
    rw [List.dedup_cons_of_mem (by simp), List.dedup_cons_of_mem (by simp)]
    simp
  rw [h1]
  rfl

lemma stepFn_cont_of_neg (task task_id : String) (max_loops : Nat) (env : Nat → IterEnv)
    (outs : Nat → String) (j : Nat) (hj : 1 ≤ j)
    (h : ChecksNegative task task_id env outs j) :
    stepFn task task_id max_loops env j (stateAfter task max_loops outs (j - 1)) =
      StepRes.cont (stateAfter task max_loops outs j) := by
  obtain ⟨h1, h2, h3, h4, h5⟩ := h
  rw [stepFn_ok h1]
  have hinv : (invokedSt task max_loops j (stateAfter task max_loops outs (j - 1))
      (outs j)).history = fpHist outs j := by
    simp [invokedSt, stateAfter, fpHist_concat outs hj]
  rw [stepChecks_cont h2 h3 h4 (by rw [hinv]; exact h5)]
  have hne : j ≠ 0 := by omega
  congr 1
  simp only [invokedSt, stateAfter]
  refine LoopSt.mk.injEq .. ▸ ?_
  simp [ctxAfter, hne, fpHist_concat outs hj, promptAt,
    range'_one_concat hj, List.map_append]

lemma runAux_reach (task task_id : String) (max_loops : Nat) (env : Nat → IterEnv)
    (outs : Nat → String) (m : Nat) :
    ∀ fuel : Nat, m ≤ fuel →
    (∀ j, 1 ≤ j → j ≤ m → ChecksNegative task task_id env outs j) →
    runAux task task_id max_loops env fuel 1 initSt =
      runAux task task_id max_loops env (fuel - m) (m + 1)
        (stateAfter task max_loops outs m) := by
  induction m with
  | zero =>
    intro fuel _ _
    simp [stateAfter_zero]
  | succ m ih =>
    intro fuel hm hneg
    rw [ih fuel (by omega) (fun j hj1 hj2 => hneg j hj1 (by omega))]
    have hfuel : fuel - m = (fuel - (m + 1)) + 1 := by omega
    rw [hfuel, runAux]
    have hstep := stepFn_cont_of_neg task task_id max_loops env outs
      (m + 1) (by omega) (hneg (m + 1) (by omega) (by omega))
    rw [show m + 1 - 1 = m from by omega] at hstep
    rw [hstep]

lemma runAux_iters (task task_id : String) (max_loops : Nat) (env : Nat → IterEnv) :
    ∀ (fuel it : Nat) (st : LoopSt), st.iters = List.range' 1 (it - 1) → 1 ≤ it →
    ∃ m, (runAux task task_id max_loops env fuel it st).2.iters = List.range' 1 m ∧
      m ≤ (it - 1) + fuel ∧
      ∀ o n out, (runAux task task_id max_loops env fuel it st).1 =
        LoopRes.finished o n out → m = n := by
  intro fuel
  induction fuel with
  | zero =>
    intro it st hst hit
    refine ⟨it - 1, by simpa [runAux] using hst, by omega, ?_⟩
    intro o n out h
    simp only [runAux] at h
    cases h
    rfl
  | succ fuel ih =>
    intro it st hst hit
    have hiters : (stepSt (stepFn task task_id max_loops env it st)).iters =
        List.range' 1 it := by
      rw [stepSt_stepFn.1, hst, ← range'_one_concat hit]
    cases hs : stepFn task task_id max_loops env it st with
    | cont st' =>
      rw [hs] at hiters
      simp only [stepSt] at hiters
      have := ih (it + 1) st' (by simpa using hiters) (by omega)
      obtain ⟨m, hm1, hm2, hm3⟩ := this
      refine ⟨m, ?_, by omega, ?_⟩
      · simpa [runAux, hs] using hm1
      · intro o n out h
        exact hm3 o n out (by simpa [runAux, hs] using h)
    | stop o output st' =>
      rw [hs] at hiters
      simp only [stepSt] at hiters
      refine ⟨it, by simpa [runAux, hs] using hiters, by omega, ?_⟩
      intro o' n out h
      simp only [runAux, hs] at h
      cases h
      rfl
    | fatal e st' =>
      rw [hs] at hiters
      simp only [stepSt] at hiters
      refine ⟨it, by simpa [runAux, hs] using hiters, by omega, ?_⟩
      intro o' n out h
      simp only [runAux, hs] at h
      exact absurd h (by simp)

lemma runAux_prompts_ext (task task_id : String) (max_loops : Nat) (env : Nat → IterEnv) :
    ∀ (fuel it : Nat) (st : LoopSt), ∃ l,
      (runAux task task_id max_loops env fuel it st).2.prompts = st.prompts ++ l := by
  intro fuel
  induction fuel with
  | zero =>
    intro it st
    exact ⟨[], by simp [runAux]⟩
  | succ fuel ih =>
    intro it st
    have hpr : (stepSt (stepFn task task_id max_loops env it st)).prompts =
        st.prompts ++ [build_prompt task it max_loops st.prevSummary st.remaining] :=
      stepSt_stepFn.2
    cases hs : stepFn task task_id max_loops env it st with
    | cont st' =>
      rw [hs] at hpr
      simp only [stepSt] at hpr
      obtain ⟨l, hl⟩ := ih (it + 1) st'
      exact ⟨[build_prompt task it max_loops st.prevSummary st.remaining] ++ l,
        by simp [runAux, hs, hl, hpr]⟩
    | stop o output st' =>
      rw [hs] at hpr
      simp only [stepSt] at hpr
      exact ⟨[build_prompt task it max_loops st.prevSummary st.remaining],
        by simpa [runAux, hs] using hpr⟩
    | fatal e st' =>
      rw [hs] at hpr
      simp only [stepSt] at hpr
      exact ⟨[build_prompt task it max_loops st.prevSummary st.remaining],
        by simpa [runAux, hs] using hpr⟩

lemma runAux_first_prompt (task task_id : String) (max_loops : Nat) (env : Nat → IterEnv)
    (fuel it : Nat) (st : LoopSt) : ∃ l,
    (runAux task task_id max_loops env (fuel + 1) it st).2.prompts =
      st.prompts ++ [build_prompt task it max_loops st.prevSummary st.remaining] ++ l := by
  have hpr : (stepSt (stepFn task task_id max_loops env it st)).prompts =
      st.prompts ++ [build_prompt task it max_loops st.prevSummary st.remaining] :=
    stepSt_stepFn.2
  cases hs : stepFn task task_id max_loops env it st with
  | cont st' =>
    rw [hs] at hpr
    simp only [stepSt] at hpr
    obtain ⟨l, hl⟩ := runAux_prompts_ext task task_id max_loops env fuel (it + 1) st'
    exact ⟨l, by simp [runAux, hs, hl, hpr]⟩
  | stop o output st' =>
    rw [hs] at hpr
    simp only [stepSt] at hpr
    exact ⟨[], by simpa [runAux, hs] using hpr⟩
  | fatal e st' =>
    rw [hs] at hpr
    simp only [stepSt] at hpr
    exact ⟨[], by simpa [runAux, hs] using hpr⟩

lemma runAux_stuck_ge (task task_id : String) (max_loops : Nat) (env : Nat → IterEnv) :
    ∀ (fuel it : Nat) (st : LoopSt), st.history.length + 1 = it →
    ∀ n out, (runAux task task_id max_loops env fuel it st).1 =
      LoopRes.finished Outcome.stuck n out → 3 ≤ n := by
  intro fuel
  induction fuel with
  | zero =>
    intro it st hst n out h
    simp only [runAux] at h
    cases h
  | succ fuel ih =>
    intro it st hst n out h
    cases hs : stepFn task task_id max_loops env it st with
    | cont st' =>
      simp only [runAux, hs] at h
      exact ih (it + 1) st' (by rw [stepFn_cont_hist hs]; omega) n out h
    | stop o output st' =>
      simp only [runAux, hs] at h
      obtain ⟨ho, hn, _⟩ := LoopRes.finished.inj h.symm
      subst ho
      obtain ⟨hdet, hlen⟩ := stepFn_stop_stuck hs
      have := detect_length_ge hdet
      omega
    | fatal e st' =>
      simp only [runAux, hs] at h
      exact absurd h (by simp)

lemma ralph_stuck_ge3 (task task_id : String) (max_loops : Nat) (env : Nat → IterEnv)
    (elapsed : Nat) (n : Nat) (out : String)
    (h : (ralph_loop task task_id max_loops env elapsed).res =
      LoopRes.finished Outcome.stuck n out) : 3 ≤ n := by
  unfold ralph_loop at h
  by_cases hm : max_loops = 0
  · rw [if_pos hm] at h
    exact absurd h (by simp)
  · rw [if_neg hm] at h
    exact runAux_stuck_ge task task_id max_loops env max_loops 1 initSt rfl n out h

lemma ralph_at_k (task task_id : String) (max_loops : Nat) (env : Nat → IterEnv)
    (elapsed : Nat) (outs : Nat → String) (k : Nat)
    (hk1 : 1 ≤ k) (hkm : k ≤ max_loops)
    (hneg : ∀ j, 1 ≤ j → j ≤ k - 1 → ChecksNegative task task_id env outs j) :
    ralph_loop task task_id max_loops env elapsed =
      match stepFn task task_id max_loops env k (stateAfter task max_loops outs (k - 1)) with
      | StepRes.cont st' =>
        ⟨(runAux task task_id max_loops env (max_loops - k) (k + 1) st').1,
         (runAux task task_id max_loops env (max_loops - k) (k + 1) st').2,
         mkEndLog task_id elapsed
           (runAux task task_id max_loops env (max_loops - k) (k + 1) st').1⟩
      | StepRes.stop o output st' =>
        ⟨LoopRes.finished o k output, st', some ⟨task_id, k, elapsed, endStatus output⟩⟩
      | StepRes.fatal e st' => ⟨LoopRes.fatal e, st', none⟩ := by
  have hm0 : max_loops ≠ 0 := by omega
  have hreach := runAux_reach task task_id max_loops env outs (k - 1) max_loops
    (by omega) hneg
  rw [show k - 1 + 1 = k from by omega,
    show max_loops - (k - 1) = (max_loops - k) + 1 from by omega] at hreach
  unfold ralph_loop
  rw [if_neg hm0, hreach, runAux]
  cases hs : stepFn task task_id max_loops env k (stateAfter task max_loops outs (k - 1)) with
  | cont st' => rfl
  | stop o output st' => rfl
  | fatal e st' => rfl

lemma invokedSt_iters_len (task : String) (max_loops : Nat) (outs : Nat → String)
    (k : Nat) (out : String) (hk : 1 ≤ k) :
    (invokedSt task max_loops k (stateAfter task max_loops outs (k - 1)) out).iters.length
      = k := by
  simp [invokedSt, stateAfter]
  omega

lemma invokedSt_iters (task : String) (max_loops : Nat) (outs : Nat → String)
    (k : Nat) (out : String) (hk : 1 ≤ k) :
    (invokedSt task max_loops k (stateAfter task max_loops outs (k - 1)) out).iters
      = List.range' 1 k := by
  simp [invokedSt, stateAfter]
  exact (range'_one_concat hk).symm

lemma fpHist_three (outs : Nat → String) {k : Nat} (hk : 1 ≤ k) :
    fpHist outs (k + 2) = fpHist outs (k - 1) ++
      [fingerprint (outs k), fingerprint (outs (k + 1)), fingerprint (outs (k + 2))] := by
  have h2 : fpHist outs (k + 2) = fpHist outs (k + 1) ++ [fingerprint (outs (k + 2))] :=
    fpHist_concat outs (by omega)
  have h1 : fpHist outs (k + 1) = fpHist outs k ++ [fingerprint (outs (k + 1))] :=
    fpHist_concat outs (by omega)
  have h0 : fpHist outs k = fpHist outs (k - 1) ++ [fingerprint (outs k)] :=
    fpHist_concat outs hk
  rw [h2, h1, h0]
  simp

lemma containsStr_empty (hay : String) : ContainsStr hay "" := List.nil_infix

lemma containsStr_mid (x s y : String) : ContainsStr (x ++ s ++ y) s := by
  unfold ContainsStr
  simp only [String.data_append]
  exact List.infix_append _ _ _

lemma containsStr_left {x : String} {s : String} (h : ContainsStr x s) (y : String) :
    ContainsStr (x ++ y) s := by
  obtain ⟨p, q, hpq⟩ := h
  exact ⟨p, q ++ y.data, by rw [String.data_append, ← hpq]; simp [List.append_assoc]⟩

lemma build_prompt_contains (task : String) (i m : Nat) (s r : String) :
    ContainsStr (build_prompt task i m s r) s ∧ ContainsStr (build_prompt task i m s r) r := by
  by_cases hs : s.isEmpty = true <;> by_cases hr : r.isEmpty = true
  · rw [show build_prompt task i m s r = prompt_header task i m from by
      simp [build_prompt, hs, hr]]
    rw [(String.isEmpty_iff s).1 hs, (String.isEmpty_iff r).1 hr]
    exact ⟨containsStr_empty _, containsStr_empty _⟩
  · rw [show build_prompt task i m s r =
        prompt_header task i m ++ "\n## Known Remaining Work\n" ++ r ++ "\n" from by
      simp [build_prompt, hs, hr]]
    rw [(String.isEmpty_iff s).1 hs]
    exact ⟨containsStr_empty _, containsStr_mid _ _ _⟩
  · rw [show build_prompt task i m s r =
        prompt_header task i m ++ "\n## Previous Iteration Summary\n" ++ s ++ "\n" from by
      simp [build_prompt, hs, hr]]
    rw [(String.isEmpty_iff r).1 hr]
    exact ⟨containsStr_mid _ _ _, containsStr_empty _⟩
  · rw [show build_prompt task i m s r =
        prompt_header task i m ++ "\n## Previous Iteration Summary\n" ++ s ++ "\n" ++
          "\n## Known Remaining Work\n" ++ r ++ "\n" from by
      simp [build_prompt, hs, hr]]
    constructor
    · exact containsStr_left (containsStr_left (containsStr_left
        (containsStr_mid _ _ _) _) _) _
    · exact containsStr_mid _ _ _

/-! ### Concrete fixtures used by witnesses and counterexamples -/

/-- A filesystem view in which neither probed directory exists. -/
def fsAbsent : FsState := ⟨false, Except.ok [], false, Except.ok []⟩

/-! ### The claims -/

/-- C1: for every task and every budget, the loop makes at most `max_loops`
worker invocations; the trace of iteration-counter values at the successive
invocations is exactly `[1, 2, …, m]` (starts at 1, strictly increases by
1); and once a terminal outcome is assigned the worker is never invoked
again (the invocation count equals the iteration at which the outcome was
assigned). -/
theorem ralph_C1 (task task_id : String) (max_loops : Nat) (env : Nat → IterEnv)
    (elapsed : Nat) :
    ∃ m, (ralph_loop task task_id max_loops env elapsed).st.iters = List.range' 1 m ∧
      m ≤ max_loops ∧
      ∀ o n out, (ralph_loop task task_id max_loops env elapsed).res =
        LoopRes.finished o n out → m = n := by
  by_cases hm : max_loops = 0
  · refine ⟨0, ?_, by omega, ?_⟩
    · simp [ralph_loop, hm, initSt]
    · intro o n out h
      simp [ralph_loop, hm] at h
  · obtain ⟨m, h1, h2, h3⟩ :=
      runAux_iters task task_id max_loops env max_loops 1 initSt rfl (by omega)
    refine ⟨m, ?_, by omega, ?_⟩
    · simpa [ralph_loop, hm] using h1
    · intro o n out h
      exact h3 o n out (by simpa [ralph_loop, hm] using h)

/-- C2: if the worker's output at iteration `k` holds the literal done
marker and no termination check fired on any earlier iteration, the run
finishes `completedExplicit` with exactly `k` invocations.  Nothing is
assumed about the other checks at iteration `k` itself: the marker check is
evaluated first, so it wins even when the done-folder, queue-empty or stuck
conditions also hold there. -/
theorem ralph_C2 (task task_id : String) (max_loops : Nat) (env : Nat → IterEnv)
    (elapsed : Nat) (outs : Nat → String) (k : Nat)
    (hk1 : 1 ≤ k) (hkm : k ≤ max_loops)
    (hneg : ∀ j, 1 ≤ j → j ≤ k - 1 → ChecksNegative task task_id env outs j)
    (hok : invoke_claude (env k).resp = Except.ok (outs k))
    (hmark : strContains (outs k) RALPH_DONE_MARKER = true) :
    (ralph_loop task task_id max_loops env elapsed).res =
      LoopRes.finished Outcome.completedExplicit k (outs k) ∧
    (ralph_loop task task_id max_loops env elapsed).st.iters.length = k := by
  have hal := ralph_at_k task task_id max_loops env elapsed outs k hk1 hkm hneg
  rw [stepFn_ok hok, stepChecks_explicit hmark] at hal
  rw [hal]
  exact ⟨rfl, invokedSt_iters_len task max_loops outs k (outs k) hk1⟩

/-- Environment for the C2 witness: iteration 1 continues; at iteration 2
the output holds the marker while, simultaneously, the done folder holds a
matching file and the pending-work queue is empty (so checks 2 and 3 would
also fire — the marker still wins). -/
def envC2 : Nat → IterEnv := fun i =>
  if i = 1 then
    ⟨WorkerResp.ok "working on the pending queue",
     ⟨false, Except.ok [], true, Except.ok ["a.md"]⟩⟩
  else
    ⟨WorkerResp.ok "finished: RALPH_DONE",
     ⟨true, Except.ok ["ralph_tid_done.md"], true, Except.ok []⟩⟩

/-- Output sequence of the C2 witness environment. -/
def outsC2 : Nat → String := fun i =>
  if i = 1 then "working on the pending queue" else "finished: RALPH_DONE"

theorem ralph_C2_witness :
    (ralph_loop "Process all pending tasks" "ralph_tid" 4 envC2 0).res =
      LoopRes.finished Outcome.completedExplicit 2 "finished: RALPH_DONE" ∧
    (ralph_loop "Process all pending tasks" "ralph_tid" 4 envC2 0).st.iters.length = 2 :=
  ralph_C2 "Process all pending tasks" "ralph_tid" 4 envC2 0 outsC2 2 (by decide) (by decide)
    (by
      intro j h1 h2
      have hj : j = 1 := by omega
      subst hj
      decide)
    (by decide) (by decide)

/-- Shared helper: if iterations `k`, `k+1`, `k+2` return byte-identical
outputs, the first `k+1` iterations pass all checks negatively, and at
`k+2` the three higher-priority checks are negative, the run finishes
`stuck` at iteration `k+2`. -/
lemma ralph_stuck_run (task task_id : String) (max_loops : Nat) (env : Nat → IterEnv)
    (elapsed : Nat) (outs : Nat → String) (k : Nat)
    (hk1 : 1 ≤ k) (hkm : k + 2 ≤ max_loops)
    (hneg : ∀ j, 1 ≤ j → j ≤ k + 1 → ChecksNegative task task_id env outs j)
    (hok : invoke_claude (env (k + 2)).resp = Except.ok (outs (k + 2)))
    (hmark : strContains (outs (k + 2)) RALPH_DONE_MARKER = false)
    (hdone : check_done_folder (env (k + 2)).fs task_id = Except.ok false)
    (hq : queueCheck task (env (k + 2)).fs = Except.ok false)
    (he1 : outs k = outs (k + 2)) (he2 : outs (k + 1) = outs (k + 2)) :
    (ralph_loop task task_id max_loops env elapsed).res =
      LoopRes.finished Outcome.stuck (k + 2) (outs (k + 2)) ∧
    (ralph_loop task task_id max_loops env elapsed).st.iters.length = k + 2 := by
  have hal := ralph_at_k task task_id max_loops env elapsed outs (k + 2) (by omega) hkm
    (fun j h1 h2 => hneg j h1 (by omega))
  rw [show k + 2 - 1 = k + 1 from rfl] at hal
  have hhist : (invokedSt task max_loops (k + 2)
      (stateAfter task max_loops outs (k + 1)) (outs (k + 2))).history =
      fpHist outs (k - 1) ++ [fingerprint (outs (k + 2)), fingerprint (outs (k + 2)),
        fingerprint (outs (k + 2))] := by
    have h1 : (invokedSt task max_loops (k + 2)
        (stateAfter task max_loops outs (k + 1)) (outs (k + 2))).history =
        fpHist outs (k + 1) ++ [fingerprint (outs (k + 2))] := by
      simp [invokedSt, stateAfter]
    have h2 : fpHist outs (k + 1) = fpHist outs k ++ [fingerprint (outs (k + 1))] :=
      fpHist_concat outs (by omega)
    have h3 : fpHist outs k = fpHist outs (k - 1) ++ [fingerprint (outs k)] :=
      fpHist_concat outs hk1
    rw [h1, h2, h3, he1, he2]
    simp
  have hdet : detect_repeated_action (invokedSt task max_loops (k + 2)
      (stateAfter task max_loops outs (k + 1)) (outs (k + 2))).history = true := by
    rw [hhist]
    exact detect_concat_three _ _
  rw [stepFn_ok hok, stepChecks_stuckStop hmark hdone hq hdet] at hal
  rw [hal]
  exact ⟨rfl, invokedSt_iters_len task max_loops outs (k + 2) (outs (k + 2)) (by omega)⟩

/-- C3: if three consecutive iterations `k`, `k+1`, `k+2` produce
byte-identical output (hence identical trailing fingerprints), no
higher-priority check fires on them and no earlier iteration terminated the
run, the outcome is `stuck` at iteration `k+2` and no further invocation
occurs (exactly `k+2` invocations); moreover `stuck` can never be assigned
before three fingerprints exist: every stuck run has at least 3 iterations. -/
theorem ralph_C3 (task task_id : String) (max_loops : Nat) (env : Nat → IterEnv)
    (elapsed : Nat) (outs : Nat → String) (k : Nat)
    (hk1 : 1 ≤ k) (hkm : k + 2 ≤ max_loops)
    (hneg : ∀ j, 1 ≤ j → j ≤ k + 1 → ChecksNegative task task_id env outs j)
    (hok : invoke_claude (env (k + 2)).resp = Except.ok (outs (k + 2)))
    (hmark : strContains (outs (k + 2)) RALPH_DONE_MARKER = false)
    (hdone : check_done_folder (env (k + 2)).fs task_id = Except.ok false)
    (hq : queueCheck task (env (k + 2)).fs = Except.ok false)
    (he1 : outs k = outs (k + 2)) (he2 : outs (k + 1) = outs (k + 2)) :
    (ralph_loop task task_id max_loops env elapsed).res =
      LoopRes.finished Outcome.stuck (k + 2) (outs (k + 2)) ∧
    (ralph_loop task task_id max_loops env elapsed).st.iters.length = k + 2 ∧
    ∀ (t2 id2 : String) (m2 : Nat) (env2 : Nat → IterEnv) (e2 n : Nat) (out : String),
      (ralph_loop t2 id2 m2 env2 e2).res = LoopRes.finished Outcome.stuck n out →
        3 ≤ n := by
  obtain ⟨h1, h2⟩ := ralph_stuck_run task task_id max_loops env elapsed outs k hk1 hkm
    hneg hok hmark hdone hq he1 he2
  exact ⟨h1, h2, fun t2 id2 m2 env2 e2 n out h => ralph_stuck_ge3 t2 id2 m2 env2 e2 n out h⟩

/-- Environment for the C3 witness: every iteration produces the same
output. -/
def envC3 : Nat → IterEnv := fun _ => ⟨WorkerResp.ok "no visible progress", fsAbsent⟩

/-- Output sequence of the C3 witness environment. -/
def outsC3 : Nat → String := fun _ => "no visible progress"

theorem ralph_C3_witness :
    (ralph_loop "t" "ralph_w" 5 envC3 0).res =
      LoopRes.finished Outcome.stuck 3 "no visible progress" ∧
    (ralph_loop "t" "ralph_w" 5 envC3 0).st.iters.length = 3 ∧
    ∀ (t2 id2 : String) (m2 : Nat) (env2 : Nat → IterEnv) (e2 n : Nat) (out : String),
      (ralph_loop t2 id2 m2 env2 e2).res = LoopRes.finished Outcome.stuck n out →
        3 ≤ n :=
  ralph_C3 "t" "ralph_w" 5 envC3 0 outsC3 1 (by decide) (by decide)
    (by
      intro j h1 h2
      have hj : j = 1 ∨ j = 2 := by omega
      rcases hj with hj | hj <;> subst hj <;> decide)
    (by decide) (by decide) (by decide) (by decide) (by decide) (by decide)

/-- The property C4 asserts of the persisted end-of-run entry: the recorded
status identifies which classification terminated the run — so any two
finished runs whose entries record the same status must have the same
outcome classification. -/
def recordedOutcomeIdentifies : Prop :=
  ∀ (t1 id1 : String) (m1 : Nat) (env1 : Nat → IterEnv) (e1 : Nat)
    (t2 id2 : String) (m2 : Nat) (env2 : Nat → IterEnv) (e2 : Nat)
    (o1 : Outcome) (n1 : Nat) (f1 : String) (o2 : Outcome) (n2 : Nat) (f2 : String)
    (l1 l2 : EndLog),
    (ralph_loop t1 id1 m1 env1 e1).res = LoopRes.finished o1 n1 f1 →
    (ralph_loop t2 id2 m2 env2 e2).res = LoopRes.finished o2 n2 f2 →
    (ralph_loop t1 id1 m1 env1 e1).endLog = some l1 →
    (ralph_loop t2 id2 m2 env2 e2).endLog = some l2 →
    l1.status = l2.status → o1 = o2

/-- Environment whose run gets stuck (same output every iteration). -/
def envC4stuck : Nat → IterEnv := fun _ => ⟨WorkerResp.ok "no progress made", fsAbsent⟩

/-- Environment whose run exhausts a budget of 2 without any signal. -/
def envC4budget : Nat → IterEnv := fun i =>
  ⟨WorkerResp.ok (if i = 1 then "alpha step" else "beta step"), fsAbsent⟩

/-- C4 counterexample: a `stuck` run (3 iterations) and a
`budgetExhausted` run both persist the status string `"max_reached"`, so
the recorded value cannot identify which of the five classifications
terminated the run: the identification property is false. -/
theorem ralph_C4_counterexample :
    (ralph_loop "t" "ralph_a" 5 envC4stuck 7).res =
      LoopRes.finished Outcome.stuck 3 "no progress made" ∧
    (ralph_loop "t" "ralph_a" 5 envC4stuck 7).endLog =
      some ⟨"ralph_a", 3, 7, "max_reached"⟩ ∧
    (ralph_loop "t" "ralph_b" 2 envC4budget 9).res =
      LoopRes.finished Outcome.budgetExhausted 2 "beta step" ∧
    (ralph_loop "t" "ralph_b" 2 envC4budget 9).endLog =
      some ⟨"ralph_b", 2, 9, "max_reached"⟩ ∧
    Outcome.stuck ≠ Outcome.budgetExhausted ∧
    ¬ recordedOutcomeIdentifies := by
  refine ⟨by decide, by decide, by decide, by decide, by decide, ?_⟩
  intro h
  have := h "t" "ralph_a" 5 envC4stuck 7 "t" "ralph_b" 2 envC4budget 9
    Outcome.stuck 3 "no progress made" Outcome.budgetExhausted 2 "beta step"
    ⟨"ralph_a", 3, 7, "max_reached"⟩ ⟨"ralph_b", 2, 9, "max_reached"⟩
    (by decide) (by decide) (by decide) (by decide) rfl
  exact absurd this (by decide)

lemma ralph_endLog (task task_id : String) (max_loops : Nat) (env : Nat → IterEnv)
    (elapsed : Nat) :
    (ralph_loop task task_id max_loops env elapsed).endLog =
      mkEndLog task_id elapsed (ralph_loop task task_id max_loops env elapsed).res := by
  unfold ralph_loop
  by_cases hm : max_loops = 0
  · rw [if_pos hm]
    rfl
  · rw [if_neg hm]

/-- C4 amended: on any normal finish the persisted end-of-run entry carries
the task identity, the total iteration count, the elapsed duration and a
status string — but the status is two-valued: `"RALPH_DONE"` exactly when
the final output holds the done marker, `"max_reached"` otherwise.  It does
not record which of the five classifications terminated the run. -/
theorem ralph_C4_amended (task task_id : String) (max_loops : Nat) (env : Nat → IterEnv)
    (elapsed : Nat) (o : Outcome) (n : Nat) (out : String)
    (h : (ralph_loop task task_id max_loops env elapsed).res = LoopRes.finished o n out) :
    (ralph_loop task task_id max_loops env elapsed).endLog =
      some ⟨task_id, n, elapsed, endStatus out⟩ ∧
    (strContains out RALPH_DONE_MARKER = true → endStatus out = "RALPH_DONE") ∧
    (strContains out RALPH_DONE_MARKER = false → endStatus out = "max_reached") := by
  refine ⟨?_, ?_, ?_⟩
  · rw [ralph_endLog, h]
    rfl
  · intro h'
    unfold endStatus
    rw [if_pos h']
  · intro h'
    unfold endStatus
    rw [if_neg (by simp [h'])]

theorem ralph_C4_amended_witness :
    (ralph_loop "t" "ralph_a" 5 envC4stuck 7).endLog =
      some ⟨"ralph_a", 3, 7, endStatus "no progress made"⟩ ∧
    (strContains "no progress made" RALPH_DONE_MARKER = true →
      endStatus "no progress made" = "RALPH_DONE") ∧
    (strContains "no progress made" RALPH_DONE_MARKER = false →
      endStatus "no progress made" = "max_reached") :=
  ralph_C4_amended "t" "ralph_a" 5 envC4stuck 7 Outcome.stuck 3 "no progress made"
    (by decide)

/-- C5 counterexample: the claim says a timed-out invocation yields a
sentinel with EMPTY output text; in the code the sentinel output is the
non-empty literal `"(timeout — no output)"`. -/
theorem ralph_C5_counterexample :
    invoke_claude WorkerResp.timedOut ≠ Except.ok "" ∧
    invoke_claude WorkerResp.timedOut = Except.ok "(timeout — no output)" := by
  constructor <;> decide

/-- C5 amended: a timed-out invocation returns the fixed, non-empty
sentinel string rather than empty text; the run is not aborted (it
finishes normally, exit status 0); and since the sentinel is constant,
three consecutive timed-out iterations produce identical fingerprints and
terminate the run as `stuck`. -/
theorem ralph_C5_amended (task task_id : String) (max_loops : Nat) (env : Nat → IterEnv)
    (elapsed : Nat) (outs : Nat → String) (k : Nat)
    (hk1 : 1 ≤ k) (hkm : k + 2 ≤ max_loops)
    (hneg : ∀ j, 1 ≤ j → j ≤ k + 1 → ChecksNegative task task_id env outs j)
    (ht0 : (env k).resp = WorkerResp.timedOut)
    (ht1 : (env (k + 1)).resp = WorkerResp.timedOut)
    (ht2 : (env (k + 2)).resp = WorkerResp.timedOut)
    (hout2 : outs (k + 2) = TIMEOUT_OUTPUT)
    (hdone : check_done_folder (env (k + 2)).fs task_id = Except.ok false)
    (hq : queueCheck task (env (k + 2)).fs = Except.ok false) :
    invoke_claude WorkerResp.timedOut = Except.ok TIMEOUT_OUTPUT ∧
    TIMEOUT_OUTPUT ≠ "" ∧
    (ralph_loop task task_id max_loops env elapsed).res =
      LoopRes.finished Outcome.stuck (k + 2) TIMEOUT_OUTPUT ∧
    exit_code (ralph_loop task task_id max_loops env elapsed) = 0 := by
  have he0 : outs k = TIMEOUT_OUTPUT := by
    have h := (hneg k (by omega) (by omega)).1
    rw [ht0] at h
    simp only [invoke_claude, Except.ok.injEq] at h
    exact h.symm
  have he1 : outs (k + 1) = TIMEOUT_OUTPUT := by
    have h := (hneg (k + 1) (by omega) (by omega)).1
    rw [ht1] at h
    simp only [invoke_claude, Except.ok.injEq] at h
    exact h.symm
  obtain ⟨h1, h2⟩ := ralph_stuck_run task task_id max_loops env elapsed outs k hk1 hkm
    hneg (by rw [ht2, hout2]; rfl) (by rw [hout2]; decide) hdone hq
    (by rw [he0, hout2]) (by rw [he1, hout2])
  rw [hout2] at h1
  refine ⟨rfl, by decide, h1, ?_⟩
  unfold exit_code
  rw [h1]

/-- Environment for the C5 witness: every invocation times out; neither
probed directory exists. -/
def envC5 : Nat → IterEnv := fun _ => ⟨WorkerResp.timedOut, fsAbsent⟩

/-- Output sequence of the C5 witness environment: the timeout sentinel at
every iteration. -/
def outsC5 : Nat → String := fun _ => TIMEOUT_OUTPUT

theorem ralph_C5_amended_witness :
    invoke_claude WorkerResp.timedOut = Except.ok TIMEOUT_OUTPUT ∧
    TIMEOUT_OUTPUT ≠ "" ∧
    (ralph_loop "t" "ralph_w" 6 envC5 0).res =
      LoopRes.finished Outcome.stuck 3 TIMEOUT_OUTPUT ∧
    exit_code (ralph_loop "t" "ralph_w" 6 envC5 0) = 0 :=
  ralph_C5_amended "t" "ralph_w" 6 envC5 0 outsC5 1 (by decide) (by decide)
    (by
      intro j h1 h2
      have hj : j = 1 ∨ j = 2 := by omega
      rcases hj with hj | hj <;> subst hj <;> decide)
    (by decide) (by decide) (by decide) (by decide) (by decide) (by decide)

/-- Filesystem view whose `Done/` directory exists but whose listing raises
(e.g. a permission error during `iterdir()`). -/
def fsC6err : FsState := ⟨true, Except.error (), false, Except.ok []⟩

/-- Environment for the C6 counterexample: the worker answers normally but
every done-folder probe raises. -/
def envC6 : Nat → IterEnv := fun _ => ⟨WorkerResp.ok "hello there", fsC6err⟩

/-- Filesystem view whose `Needs_Action/` directory exists but whose
`glob("*.md")` raises (e.g. a permission error); `Done/` does not exist. -/
def fsC6glob : FsState := ⟨false, Except.ok [], true, Except.error ()⟩

/-- Environment for the C6 pending-work (glob) failure run: the worker
answers normally but every queue probe raises. -/
def envC6b : Nat → IterEnv := fun _ => ⟨WorkerResp.ok "scanning the queue", fsC6glob⟩

/-- C6 counterexample: the claim says an exception while probing the
completion directory or the pending-work directory is treated as "no
evidence found" and never propagated.  In the code there is no handler:
each probe returns the error, and a run whose first done-folder `iterdir`
probe raises — or, for a batch task, whose first `Needs_Action` glob probe
raises — aborts fatally with a nonzero exit status instead of continuing. -/
theorem ralph_C6_counterexample :
    check_done_folder fsC6err "ralph_w" = Except.error () ∧
    (ralph_loop "t" "ralph_w" 3 envC6 0).res = LoopRes.fatal Fatal.probeErr ∧
    exit_code (ralph_loop "t" "ralph_w" 3 envC6 0) = 1 ∧
    check_needs_action_empty fsC6glob = Except.error () ∧
    (ralph_loop "Process all pending tasks" "ralph_g" 3 envC6b 0).res =
      LoopRes.fatal Fatal.probeErr ∧
    exit_code (ralph_loop "Process all pending tasks" "ralph_g" 3 envC6b 0) = 1 := by
  refine ⟨by decide, by decide, by decide, by decide, by decide, by decide⟩

/-- C6 amended: an exception raised while listing an existing probed
directory — during the done-folder `iterdir` or during the pending-work
`glob` (the latter reached when the batch heuristic matches and the
done-folder probe was negative) — propagates out of the check and aborts
the run (uncaught, so the process dies nonzero with no end-of-run log
entry); only the directory-does-not-exist case is handled without an
exception — the done-folder probe then reports no evidence (`False`) and
the queue probe reports empty (`True`). -/
theorem ralph_C6_amended (fs fs2 fs3 fsg : FsState) (task task_id : String)
    (max_loops : Nat) (env : Nat → IterEnv) (elapsed : Nat)
    (outs : Nat → String) (k : Nat)
    (task2 task_id2 : String) (max_loops2 : Nat) (env2 : Nat → IterEnv)
    (elapsed2 : Nat) (outs2 : Nat → String) (k2 : Nat)
    (h1 : fs.doneDirExists = true) (h2 : fs.doneFiles = Except.error ())
    (h3 : fs2.doneDirExists = false) (h4 : fs3.needsActionDirExists = false)
    (hk1 : 1 ≤ k) (hkm : k ≤ max_loops)
    (hneg : ∀ j, 1 ≤ j → j ≤ k - 1 → ChecksNegative task task_id env outs j)
    (hok : invoke_claude (env k).resp = Except.ok (outs k))
    (hmark : strContains (outs k) RALPH_DONE_MARKER = false)
    (hfs : (env k).fs = fs)
    (h5 : fsg.needsActionDirExists = true)
    (h6 : fsg.needsActionMdFiles = Except.error ())
    (hk1b : 1 ≤ k2) (hkmb : k2 ≤ max_loops2)
    (hneg2 : ∀ j, 1 ≤ j → j ≤ k2 - 1 → ChecksNegative task2 task_id2 env2 outs2 j)
    (hok2 : invoke_claude (env2 k2).resp = Except.ok (outs2 k2))
    (hmark2 : strContains (outs2 k2) RALPH_DONE_MARKER = false)
    (hdone2 : check_done_folder (env2 k2).fs task_id2 = Except.ok false)
    (hbatch2 : strContains (strToLower task2) "pending tasks" = true)
    (hfs2 : (env2 k2).fs = fsg) :
    check_done_folder fs task_id = Except.error () ∧
    check_done_folder fs2 task_id = Except.ok false ∧
    check_needs_action_empty fs3 = Except.ok true ∧
    (ralph_loop task task_id max_loops env elapsed).res = LoopRes.fatal Fatal.probeErr ∧
    (ralph_loop task task_id max_loops env elapsed).endLog = none ∧
    exit_code (ralph_loop task task_id max_loops env elapsed) = 1 ∧
    check_needs_action_empty fsg = Except.error () ∧
    (ralph_loop task2 task_id2 max_loops2 env2 elapsed2).res =
      LoopRes.fatal Fatal.probeErr ∧
    (ralph_loop task2 task_id2 max_loops2 env2 elapsed2).endLog = none ∧
    exit_code (ralph_loop task2 task_id2 max_loops2 env2 elapsed2) = 1 := by
  have hcd : check_done_folder fs task_id = Except.error () := by
    simp [check_done_folder, h1, h2]
  have hce : check_needs_action_empty fsg = Except.error () := by
    simp [check_needs_action_empty, h5, h6]
  have hq2 : queueCheck task2 (env2 k2).fs = Except.error () := by
    unfold queueCheck
    rw [if_pos hbatch2, hfs2]
    exact hce
  have hal := ralph_at_k task task_id max_loops env elapsed outs k hk1 hkm hneg
  rw [stepFn_ok hok, stepChecks_probeFail hmark (by rw [hfs]; exact hcd)] at hal
  have hal2 := ralph_at_k task2 task_id2 max_loops2 env2 elapsed2 outs2 k2 hk1b hkmb hneg2
  rw [stepFn_ok hok2, stepChecks_queueFail hmark2 hdone2 hq2] at hal2
  rw [hal, hal2]
  exact ⟨hcd, by simp [check_done_folder, h3], by simp [check_needs_action_empty, h4],
    rfl, rfl, rfl, hce, rfl, rfl, rfl⟩

theorem ralph_C6_amended_witness :
    check_done_folder fsC6err "ralph_w" = Except.error () ∧
    check_done_folder fsAbsent "ralph_w" = Except.ok false ∧
    check_needs_action_empty fsAbsent = Except.ok true ∧
    (ralph_loop "t" "ralph_w" 3 envC6 0).res = LoopRes.fatal Fatal.probeErr ∧
    (ralph_loop "t" "ralph_w" 3 envC6 0).endLog = none ∧
    exit_code (ralph_loop "t" "ralph_w" 3 envC6 0) = 1 ∧
    check_needs_action_empty fsC6glob = Except.error () ∧
    (ralph_loop "Process all pending tasks" "ralph_g" 3 envC6b 0).res =
      LoopRes.fatal Fatal.probeErr ∧
    (ralph_loop "Process all pending tasks" "ralph_g" 3 envC6b 0).endLog = none ∧
    exit_code (ralph_loop "Process all pending tasks" "ralph_g" 3 envC6b 0) = 1 :=
  ralph_C6_amended fsC6err fsAbsent fsAbsent fsC6glob "t" "ralph_w" 3 envC6 0
    (fun _ => "hello there") 1
    "Process all pending tasks" "ralph_g" 3 envC6b 0 (fun _ => "scanning the queue") 1
    rfl rfl rfl rfl (by decide) (by decide)
    (by intro j hj1 hj2; omega) (by decide) (by decide) rfl
    rfl rfl (by decide) (by decide)
    (by intro j hj1 hj2; omega) (by decide) (by decide) (by decide) (by decide) rfl

/-- C7: for a batch task (lowercased description holds the phrase
`"pending tasks"`), if no earlier iteration terminated the run and at
iteration `k` the output holds no marker, the done-folder probe is
negative, and the pending-work directory holds zero `.md` entries, then
the run finishes `completedQueueEmpty` at exactly iteration `k` — the
first iteration observing the empty queue. -/
theorem ralph_C7 (task task_id : String) (max_loops : Nat) (env : Nat → IterEnv)
    (elapsed : Nat) (outs : Nat → String) (k : Nat)
    (hk1 : 1 ≤ k) (hkm : k ≤ max_loops)
    (hneg : ∀ j, 1 ≤ j → j ≤ k - 1 → ChecksNegative task task_id env outs j)
    (hok : invoke_claude (env k).resp = Except.ok (outs k))
    (hmark : strContains (outs k) RALPH_DONE_MARKER = false)
    (hdone : check_done_folder (env k).fs task_id = Except.ok false)
    (hbatch : strContains (strToLower task) "pending tasks" = true)
    (hempty : check_needs_action_empty (env k).fs = Except.ok true) :
    (ralph_loop task task_id max_loops env elapsed).res =
      LoopRes.finished Outcome.completedQueueEmpty k (outs k) ∧
    (ralph_loop task task_id max_loops env elapsed).st.iters.length = k := by
  have hq : queueCheck task (env k).fs = Except.ok true := by
    unfold queueCheck
    rw [if_pos hbatch]
    exact hempty
  have hal := ralph_at_k task task_id max_loops env elapsed outs k hk1 hkm hneg
  rw [stepFn_ok hok, stepChecks_queueEmpty hmark hdone hq] at hal
  rw [hal]
  exact ⟨rfl, invokedSt_iters_len task max_loops outs k (outs k) hk1⟩

/-- Environment for the C7 witness (the spec's worked example): the
pending-work directory has 3 eligible entries before iterations 1 and 2,
and 0 before iteration 3's evaluation; the budget is 5. -/
def envC7 : Nat → IterEnv := fun i =>
  ⟨WorkerResp.ok (s!"processed item {i}"),
   if i ≤ 2 then ⟨false, Except.ok [], true, Except.ok ["t1.md", "t2.md", "t3.md"]⟩
   else ⟨false, Except.ok [], true, Except.ok []⟩⟩

/-- Output sequence of the C7 witness environment. -/
def outsC7 : Nat → String := fun i => s!"processed item {i}"

theorem ralph_C7_witness :
    (ralph_loop "Process all pending tasks" "ralph_q" 5 envC7 0).res =
      LoopRes.finished Outcome.completedQueueEmpty 3 "processed item 3" ∧
    (ralph_loop "Process all pending tasks" "ralph_q" 5 envC7 0).st.iters.length = 3 :=
  ralph_C7 "Process all pending tasks" "ralph_q" 5 envC7 0 outsC7 3 (by decide) (by decide)
    (by
      intro j h1 h2
      have hj : j = 1 ∨ j = 2 := by omega
      rcases hj with hj | hj <;> subst hj <;> decide)
    (by decide) (by decide) (by decide) (by decide) (by decide)

/-- C9: if at iteration `k` the worker executable cannot be located
(`FileNotFoundError`) and no earlier check terminated the run, the run
aborts immediately — the failed attempt is the last (no retry: the counter
trace ends at `k`), no end-of-run log entry is written, and the process
exit status is nonzero (1); whereas every run that reaches one of the
terminal outcomes exits with status 0, whichever outcome it is. -/
theorem ralph_C9 (task task_id : String) (max_loops : Nat) (env : Nat → IterEnv)
    (elapsed : Nat) (outs : Nat → String) (k : Nat)
    (hk1 : 1 ≤ k) (hkm : k ≤ max_loops)
    (hneg : ∀ j, 1 ≤ j → j ≤ k - 1 → ChecksNegative task task_id env outs j)
    (hnf : invoke_claude (env k).resp = Except.error ()) :
    (ralph_loop task task_id max_loops env elapsed).res = LoopRes.fatal Fatal.exeNotFound ∧
    (ralph_loop task task_id max_loops env elapsed).st.iters = List.range' 1 k ∧
    (ralph_loop task task_id max_loops env elapsed).endLog = none ∧
    exit_code (ralph_loop task task_id max_loops env elapsed) = 1 ∧
    ∀ (t2 id2 : String) (m2 : Nat) (env2 : Nat → IterEnv) (e2 : Nat) (o : Outcome)
      (n : Nat) (out : String),
      (ralph_loop t2 id2 m2 env2 e2).res = LoopRes.finished o n out →
        exit_code (ralph_loop t2 id2 m2 env2 e2) = 0 := by
  have hal := ralph_at_k task task_id max_loops env elapsed outs k hk1 hkm hneg
  rw [stepFn_notFound hnf] at hal
  rw [hal]
  refine ⟨rfl, ?_, rfl, rfl, ?_⟩
  · show (stateAfter task max_loops outs (k - 1)).iters ++ [k] = List.range' 1 k
    rw [show (stateAfter task max_loops outs (k - 1)).iters = List.range' 1 (k - 1) from rfl]
    exact (range'_one_concat hk1).symm
  · intro t2 id2 m2 env2 e2 o n out h
    unfold exit_code
    rw [h]

/-- Environment for the C9 witness: iteration 1 answers normally, the
launch attempt at iteration 2 raises `FileNotFoundError`. -/
def envC9 : Nat → IterEnv := fun i =>
  if i = 2 then ⟨WorkerResp.notFound, fsAbsent⟩ else ⟨WorkerResp.ok "step one ok", fsAbsent⟩

theorem ralph_C9_witness :
    (ralph_loop "t" "ralph_n" 5 envC9 0).res = LoopRes.fatal Fatal.exeNotFound ∧
    (ralph_loop "t" "ralph_n" 5 envC9 0).st.iters = List.range' 1 2 ∧
    (ralph_loop "t" "ralph_n" 5 envC9 0).endLog = none ∧
    exit_code (ralph_loop "t" "ralph_n" 5 envC9 0) = 1 ∧
    ∀ (t2 id2 : String) (m2 : Nat) (env2 : Nat → IterEnv) (e2 : Nat) (o : Outcome)
      (n : Nat) (out : String),
      (ralph_loop t2 id2 m2 env2 e2).res = LoopRes.finished o n out →
        exit_code (ralph_loop t2 id2 m2 env2 e2) = 0 :=
  ralph_C9 "t" "ralph_n" 5 envC9 0 (fun _ => "step one ok") 2 (by decide) (by decide)
    (by
      intro j h1 h2
      have hj : j = 1 := by omega
      subst hj
      decide)
    (by decide)

/-- C10: when the pending-work directory does not exist at all, the
queue-empty probe reports the queue as empty (`True`, no error), so a task
matching the batch heuristic whose first iteration produces no marker and
no done-folder evidence terminates `completedQueueEmpty` on its very first
iteration. -/
theorem ralph_C10 (fs : FsState) (task task_id : String) (max_loops : Nat)
    (env : Nat → IterEnv) (elapsed : Nat) (outs : Nat → String)
    (habs : fs.needsActionDirExists = false)
    (hmax : 1 ≤ max_loops)
    (hok : invoke_claude (env 1).resp = Except.ok (outs 1))
    (hmark : strContains (outs 1) RALPH_DONE_MARKER = false)
    (hdone : check_done_folder (env 1).fs task_id = Except.ok false)
    (hbatch : strContains (strToLower task) "pending tasks" = true)
    (hfs : (env 1).fs = fs) :
    check_needs_action_empty fs = Except.ok true ∧
    (ralph_loop task task_id max_loops env elapsed).res =
      LoopRes.finished Outcome.completedQueueEmpty 1 (outs 1) ∧
    (ralph_loop task task_id max_loops env elapsed).st.iters.length = 1 := by
  have hem : check_needs_action_empty fs = Except.ok true := by
    simp [check_needs_action_empty, habs]
  have hq : queueCheck task (env 1).fs = Except.ok true := by
    unfold queueCheck
    rw [if_pos hbatch, hfs]
    exact hem
  have hal := ralph_at_k task task_id max_loops env elapsed outs 1 (by omega) hmax
    (by intro j hj1 hj2; omega)
  rw [stepFn_ok hok, stepChecks_queueEmpty hmark hdone hq] at hal
  rw [hal]
  exact ⟨hem, rfl, invokedSt_iters_len task max_loops outs 1 (outs 1) (by omega)⟩

/-- Environment for the C10 witness: neither directory exists at all. -/
def envC10 : Nat → IterEnv := fun _ => ⟨WorkerResp.ok "looked for work", fsAbsent⟩

theorem ralph_C10_witness :
    check_needs_action_empty fsAbsent = Except.ok true ∧
    (ralph_loop "Handle the pending tasks queue" "ralph_p" 5 envC10 0).res =
      LoopRes.finished Outcome.completedQueueEmpty 1 "looked for work" ∧
    (ralph_loop "Handle the pending tasks queue" "ralph_p" 5 envC10 0).st.iters.length = 1 :=
  ralph_C10 fsAbsent "Handle the pending tasks queue" "ralph_p" 5 envC10 0
    (fun _ => "looked for work") rfl (by decide) (by decide) (by decide) (by decide)
    (by decide) rfl

/-- Shared helper: in a run whose first `k` iterations all continue, the
prompt built for iteration `k + 1` (index `k` of the prompt trace) is
exactly `build_prompt` applied to the context extracted from iteration
`k`'s output. -/
lemma ralph_prompt_at (task task_id : String) (max_loops : Nat) (env : Nat → IterEnv)
    (elapsed : Nat) (outs : Nat → String) (k : Nat)
    (hk1 : 1 ≤ k) (hkm : k + 1 ≤ max_loops)
    (hneg : ∀ j, 1 ≤ j → j ≤ k → ChecksNegative task task_id env outs j) :
    (ralph_loop task task_id max_loops env elapsed).st.prompts[k]? =
      some (build_prompt task (k + 1) max_loops
        (parse_summary_and_remaining (outs k)).1
        (parse_summary_and_remaining (outs k)).2) := by
  have hm0 : max_loops ≠ 0 := by omega
  have hreach := runAux_reach task task_id max_loops env outs k max_loops (by omega) hneg
  rw [show max_loops - k = (max_loops - (k + 1)) + 1 from by omega] at hreach
  obtain ⟨l, hl⟩ := runAux_first_prompt task task_id max_loops env
    (max_loops - (k + 1)) (k + 1) (stateAfter task max_loops outs k)
  have hst : (ralph_loop task task_id max_loops env elapsed).st =
      (runAux task task_id max_loops env max_loops 1 initSt).2 := by
    unfold ralph_loop
    rw [if_neg hm0]
  have hps : (stateAfter task max_loops outs k).prevSummary =
      (parse_summary_and_remaining (outs k)).1 := by
    simp [stateAfter, ctxAfter, show k ≠ 0 from by omega]
  have hrem : (stateAfter task max_loops outs k).remaining =
      (parse_summary_and_remaining (outs k)).2 := by
    simp [stateAfter, ctxAfter, show k ≠ 0 from by omega]
  have hlen : (stateAfter task max_loops outs k).prompts.length = k := by
    simp [stateAfter]
  rw [hst, hreach, hl, hps, hrem, List.append_assoc,
    List.getElem?_append_right (by omega), hlen]
  simp

/-- C8: for a non-terminal iteration `k`, the prompt built for iteration
`k + 1` is exactly `build_prompt` applied to the summary and remaining-work
text extracted from iteration `k`'s output alone — the context state is
replaced, not appended: two runs with arbitrarily different earlier outputs
but the same iteration-`k` output build the identical iteration-`k+1`
prompt, so no stale remaining-work text from iteration `k - 2` can survive
into it other than through iteration `k`'s own output.  The prompt contains
the extracted summary and the extracted remaining text as substrings. -/
theorem ralph_C8 (task task_id : String) (max_loops : Nat) (env env2 : Nat → IterEnv)
    (elapsed elapsed2 : Nat) (outs outs2 : Nat → String) (k : Nat)
    (hk1 : 1 ≤ k) (hkm : k + 1 ≤ max_loops)
    (hneg : ∀ j, 1 ≤ j → j ≤ k → ChecksNegative task task_id env outs j)
    (hneg2 : ∀ j, 1 ≤ j → j ≤ k → ChecksNegative task task_id env2 outs2 j)
    (hagree : outs k = outs2 k) :
    (ralph_loop task task_id max_loops env elapsed).st.prompts[k]? =
      some (build_prompt task (k + 1) max_loops
        (parse_summary_and_remaining (outs k)).1
        (parse_summary_and_remaining (outs k)).2) ∧
    (ralph_loop task task_id max_loops env elapsed).st.prompts[k]? =
      (ralph_loop task task_id max_loops env2 elapsed2).st.prompts[k]? ∧
    ContainsStr (build_prompt task (k + 1) max_loops
        (parse_summary_and_remaining (outs k)).1
        (parse_summary_and_remaining (outs k)).2)
      (parse_summary_and_remaining (outs k)).1 ∧
    ContainsStr (build_prompt task (k + 1) max_loops
        (parse_summary_and_remaining (outs k)).1
        (parse_summary_and_remaining (outs k)).2)
      (parse_summary_and_remaining (outs k)).2 := by
  have h1 := ralph_prompt_at task task_id max_loops env elapsed outs k hk1 hkm hneg
  have h2 := ralph_prompt_at task task_id max_loops env2 elapsed2 outs2 k hk1 hkm hneg2
  rw [← hagree] at h2
  exact ⟨h1, h1.trans h2.symm,
    (build_prompt_contains task (k + 1) max_loops _ _).1,
    (build_prompt_contains task (k + 1) max_loops _ _).2⟩

/-- First environment for the C8 witness: iteration 1 reports stale
remaining work, iteration 3 reports fresh remaining work. -/
def envC8a : Nat → IterEnv := fun i =>
  ⟨WorkerResp.ok (if i = 1 then "A done\nRemaining:\nold stale item"
    else if i = 2 then "B done" else "C done\nRemaining:\nnew item"), fsAbsent⟩

/-- Output sequence of the first C8 witness environment. -/
def outsC8a : Nat → String := fun i =>
  if i = 1 then "A done\nRemaining:\nold stale item"
  else if i = 2 then "B done" else "C done\nRemaining:\nnew item"

/-- Second environment for the C8 witness: different earlier outputs, same
iteration-3 output. -/
def envC8b : Nat → IterEnv := fun i =>
  ⟨WorkerResp.ok (if i = 1 then "X done"
    else if i = 2 then "Y done\nstill need:\nother stale text"
    else "C done\nRemaining:\nnew item"), fsAbsent⟩

/-- Output sequence of the second C8 witness environment. -/
def outsC8b : Nat → String := fun i =>
  if i = 1 then "X done"
  else if i = 2 then "Y done\nstill need:\nother stale text"
  else "C done\nRemaining:\nnew item"

theorem ralph_C8_witness :
    (ralph_loop "t" "ralph_c" 5 envC8a 0).st.prompts[3]? =
      some (build_prompt "t" 4 5
        (parse_summary_and_remaining (outsC8a 3)).1
        (parse_summary_and_remaining (outsC8a 3)).2) ∧
    (ralph_loop "t" "ralph_c" 5 envC8a 0).st.prompts[3]? =
      (ralph_loop "t" "ralph_c" 5 envC8b 1).st.prompts[3]? ∧
    ContainsStr (build_prompt "t" 4 5
        (parse_summary_and_remaining (outsC8a 3)).1
        (parse_summary_and_remaining (outsC8a 3)).2)
      (parse_summary_and_remaining (outsC8a 3)).1 ∧
    ContainsStr (build_prompt "t" 4 5
        (parse_summary_and_remaining (outsC8a 3)).1
        (parse_summary_and_remaining (outsC8a 3)).2)
      (parse_summary_and_remaining (outsC8a 3)).2 :=
  ralph_C8 "t" "ralph_c" 5 envC8a envC8b 0 1 outsC8a outsC8b 3 (by decide) (by decide)
    (by
      intro j h1 h2
      have hj : j = 1 ∨ j = 2 ∨ j = 3 := by omega
      rcases hj with hj | hj | hj <;> subst hj <;> decide)
    (by
      intro j h1 h2
      have hj : j = 1 ∨ j = 2 ∨ j = 3 := by omega
      rcases hj with hj | hj | hj <;> subst hj <;> decide)
    (by decide)

end RalphWrapper
